import Mathlib

/-!
Verification of the initial-credential acquisition state machine of
lib/krb5/krb/get_in_tkt.c (Kerberos v5 client AS exchange).

The development is a shallow embedding: every C function the claims touch is
translated into an executable Lean definition.  External collaborators
(transport, ASN.1 codecs, crypto, pre-auth plugins, FAST) are modelled as
function parameters, mirroring the function-pointer hooks of the C source.
Machine integers are modelled as Int/Nat; DER encodings are deterministic and
injective, so an encoded message is modelled by a snapshot of the value that
was encoded.
-/

set_option maxRecDepth 100000

namespace Krb5GetInTkt

/-! ## Basic constants (krb5.h protocol values; kdc-options bits per RFC 4120) -/

def KRB5_INT32_MAX : Int := 2147483647

def KRB5_INT32_MIN : Int := -2147483648

def KDC_OPT_RENEWABLE_OK : Nat := 0x00000010

def KDC_OPT_POSTDATED : Nat := 0x00000040

def KDC_OPT_ALLOW_POSTDATE : Nat := 0x00000080

def KDC_OPT_CANONICALIZE : Nat := 0x00010000

def KDC_OPT_RENEWABLE : Nat := 0x00800000

def KRB5_NT_ENTERPRISE_PRINCIPAL : Int := 10

/-- Protocol error code carried inside a KRB-ERROR message. -/
def KDC_ERR_PREAUTH_REQUIRED : Nat := 25

def KDC_ERR_WRONG_REALM : Nat := 68

def KRB_ERR_RESPONSE_TOO_BIG : Nat := 52

def MAX_IN_TKT_LOOPS : Nat := 16

/-!
## Error codes

krb5 error constants are offsets in a single com_err table
(value = ERROR_TABLE_BASE_krb5 + offset).  We model the library error space as
an inductive with one constructor per constant the code under study uses, plus
`kdcReported` for a KDC-reported protocol code surfaced as
error + ERROR_TABLE_BASE_krb5.  `KRB5KRB_ERR_RESPONSE_TOO_BIG` numerically
equals `kdcReported 52`, so every place the C source adds the table base maps
protocol code 52 to the dedicated `RESPONSE_TOO_BIG` constructor (see
`kdcSurfaced`), preserving the comparisons the source performs.
-/
inductive ECode where
  | noError
  | GET_IN_TKT_LOOP
  | KDCREP_MODIFIED
  | KDCREP_SKEW
  | V4_REPLY
  | MSG_TYPE
  | REALM_MISMATCH
  | GENERIC
  | RESPONSE_TOO_BIG
  | retryMarker
  | kdcReported (protocolCode : Nat)
  | hookFailure (n : Nat)
  | decodeFailure (n : Nat)
deriving DecidableEq, Repr

/-- The C pattern `err->error + ERROR_TABLE_BASE_krb5`: a KDC-reported protocol
code surfaced into the library error space.  Protocol code 52 lands exactly on
the `KRB5KRB_ERR_RESPONSE_TOO_BIG` constant. -/
def kdcSurfaced (e : Nat) : ECode :=
  if e == KRB_ERR_RESPONSE_TOO_BIG then ECode.RESPONSE_TOO_BIG
  else ECode.kdcReported e

/-! ## Data model -/

/-- krb5_principal: realm, name components, name type. -/
structure Principal where
  realm : String
  comps : List String
  ntype : Int
deriving DecidableEq, Repr

/-- krb5_principal_compare: component-wise equality of realm and name
components; the name type is not compared. -/
def krb5_principal_compare (p q : Principal) : Bool :=
  p.realm == q.realm && p.comps == q.comps

/-- IS_TGS_PRINC (k5-int.h macro; spec section 3): exactly two components and
the first equals the literal krbtgt. -/
def IS_TGS_PRINC (p : Principal) : Bool :=
  p.comps.length == 2 && p.comps.take 1 == ["krbtgt"]

/-- krb5_pa_data: pre-authentication element (type tag and opaque contents). -/
structure PaData where
  paType : Int
  contents : List Nat
deriving DecidableEq, Repr

/-- krb5_ticket_times. -/
structure Times where
  authtime : Int
  starttime : Int
  endtime : Int
  renew_till : Int
deriving DecidableEq, Repr

/-- The ticket is opaque to the client except for its server principal (the
only field the code reads).  encode_krb5_ticket is deterministic, so the
encoded ticket is modelled by the ticket value itself. -/
structure Ticket where
  server : Principal
deriving DecidableEq, Repr

/-- krb5_enc_kdc_rep_part: the decrypted enc-part of an AS-REP. -/
structure EncPart2 where
  server : Principal
  nonce : Int
  times : Times
  flags : Nat
  session : List Nat
  caddrs : List Nat
deriving DecidableEq, Repr

/-- krb5_kdc_rep (AS-REP).  `encPart2 = none` while the enc-part is still
encrypted; decryption fills it in. -/
structure KdcRep where
  msgType : Nat
  client : Principal
  ticket : Ticket
  encPartEnctype : Int
  encPart2 : Option EncPart2
  padata : Option (List PaData)
deriving DecidableEq, Repr

/-- KRB5_AS_REP message type tag. -/
def KRB5_AS_REP : Nat := 11

/-- krb5_error (KRB-ERROR). -/
structure KrbError where
  ctime : Int
  cusec : Int
  stime : Int
  susec : Int
  error : Nat
  client : Option Principal
  server : Principal
  text : List Nat
  eData : List Nat
deriving DecidableEq, Repr

/-- krb5_kdc_req (AS-REQ body).  Between API calls `server` is always set; the
transient NULL window inside init_creds_step_request is internal, so the field
is modelled as non-optional. -/
structure KdcReq where
  client : Principal
  server : Principal
  kdcOptions : Nat
  nonce : Int
  from_ : Int
  till : Int
  rtime : Int
  ktype : List Int
  padata : Option (List PaData)
deriving DecidableEq, Repr

/-- krb5_creds (the fields get_in_tkt.c touches). -/
structure Creds where
  client : Option Principal
  server : Option Principal
  keyblock : List Nat
  times : Times
  isSkey : Bool
  ticketFlags : Nat
  addresses : List Nat
  secondTicket : List Nat
  ticket : Option Ticket
deriving DecidableEq, Repr

/-! ## krb5int_addint32 (claim C6)

Direct translation of the saturating 32-bit addition at
get_in_tkt.c:101-113.  In C the inputs are krb5_int32 values, so the theorems
carry range hypotheses. -/

def krb5int_addint32 (x y : Int) : Int :=
  if x > 0 ∧ y > KRB5_INT32_MAX - x then KRB5_INT32_MAX
  else if x < 0 ∧ y < KRB5_INT32_MIN - x then KRB5_INT32_MIN
  else x + y

/-- Claim C6 (confirmed): for signed 32-bit inputs, krb5int_addint32 returns
INT32_MAX when x>0 and y > INT32_MAX-x, INT32_MIN when x<0 and
y < INT32_MIN-x, and x+y otherwise; the result always lies in
[INT32_MIN, INT32_MAX] and equals the mathematical sum whenever that sum is in
range. -/
theorem claim_C6_theorem (x y : Int)
    (hx1 : KRB5_INT32_MIN ≤ x) (hx2 : x ≤ KRB5_INT32_MAX)
    (hy1 : KRB5_INT32_MIN ≤ y) (hy2 : y ≤ KRB5_INT32_MAX) :
    ((x > 0 ∧ y > KRB5_INT32_MAX - x) → krb5int_addint32 x y = KRB5_INT32_MAX)
    ∧ ((x < 0 ∧ y < KRB5_INT32_MIN - x) → krb5int_addint32 x y = KRB5_INT32_MIN)
    ∧ (¬(x > 0 ∧ y > KRB5_INT32_MAX - x) → ¬(x < 0 ∧ y < KRB5_INT32_MIN - x) →
        krb5int_addint32 x y = x + y)
    ∧ KRB5_INT32_MIN ≤ krb5int_addint32 x y
    ∧ krb5int_addint32 x y ≤ KRB5_INT32_MAX
    ∧ (KRB5_INT32_MIN ≤ x + y → x + y ≤ KRB5_INT32_MAX →
        krb5int_addint32 x y = x + y) := by
  simp only [krb5int_addint32, KRB5_INT32_MIN, KRB5_INT32_MAX] at *
  split_ifs <;>
    refine ⟨?_, ?_, ?_, ?_, ?_, ?_⟩ <;> intros <;> omega

/-- Claim C6 witness: the theorem evaluated at the concrete saturating input
x = INT32_MAX, y = 1. -/
theorem claim_C6_witness :
    krb5int_addint32 2147483647 1 = KRB5_INT32_MAX := by
  exact (claim_C6_theorem 2147483647 1 (by decide) (by decide) (by decide)
    (by decide)).1 (by decide)

/-!
## sort_krb5_padata_sequence (claims C7, C9)

Translation of get_in_tkt.c:944-1013.  The C function first looks up the
libdefaults string preferred_preauth_types (modelled as the `prefOpt`
parameter: `none` when the lookup fails, which makes the code fall back to the
built-in default "17, 16, 15, 14"), then repeatedly extracts an integer with
strtol and bubbles the first padata entry of that type to the next base
position.  The index-based rotation at lines 985-994 moves the first matching
entry (scanning from `base`) to position `base` while shifting the entries in
between one slot right; with the array split as done-prefix/rest this is
exactly: append the first match of the rest to the done-prefix and remove that
occurrence from the rest.  Parsing and bubbling are interleaved in C; since
bubbling cannot affect the preference string, parsing is modelled as a
separate pass producing the list of preferred types in order.
-/

/-- strspn(p, ", ") skips commas and spaces. -/
def isFieldSep (c : Char) : Bool := c == ',' || c == ' '

/-- The whitespace class skipped by strtol (C isspace). -/
def isSpaceChar (c : Char) : Bool :=
  c == ' ' || c == '\t' || c == '\n' || c == '\x0b' || c == '\x0c' || c == '\r'

def digitsVal : List Char → Int → Int
  | [], acc => acc
  | c :: cs, acc => digitsVal cs (acc * 10 + ((c.toNat : Int) - 48))

/-- strtol(p, &q, 10): skip whitespace, optional sign, then digits.  Returns
`none` (endptr = nptr, i.e. q = p) when no digits were converted, otherwise
the value and the remaining suffix.  Overflow clamping to LONG_MAX is not
modelled (the preference types in use are small). -/
def strtol10 (p : List Char) : Option (Int × List Char) :=
  let afterWs := p.dropWhile isSpaceChar
  let signAndRest : Int × List Char :=
    match afterWs with
    | c :: rest =>
      if c == '-' then (-1, rest)
      else if c == '+' then (1, rest) else (1, afterWs)
    | [] => (1, [])
  let digs := signAndRest.2.takeWhile Char.isDigit
  let rest := signAndRest.2.dropWhile Char.isDigit
  if digs.isEmpty then none
  else some (signAndRest.1 * digitsVal digs 0, rest)

/-- The parsing loop of sort_krb5_padata_sequence (get_in_tkt.c:977-1001):
skip separators; stop at end of string; extract a number with strtol; a token
with no convertible digits ends parsing (the C `break`) without error.  Fuel
is the string length plus one, which suffices because every parsed entry
consumes at least one character. -/
def parsePrefsGo : Nat → List Char → List Int
  | 0, _ => []
  | fuel + 1, s =>
    let p := s.dropWhile isFieldSep
    if p.isEmpty then []
    else
      match strtol10 p with
      | some (v, q) => v :: parsePrefsGo fuel q
      | none => []

def parsePrefs (s : List Char) : List Int := parsePrefsGo (s.length + 1) s

/-- One bubble pass for preferred type `t` over (done-prefix, rest): the first
entry of the rest whose pa_type equals `t` is moved to the end of the done
prefix (C lines 985-994). -/
def bubbleToFront (t : Int) (s : List PaData × List PaData) :
    List PaData × List PaData :=
  match s.2.find? (fun a => a.paType == t) with
  | some a => (s.1 ++ [a], s.2.erase a)
  | none => s

def applyPrefs : List Int → List PaData × List PaData → List PaData × List PaData
  | [], s => s
  | t :: ts, s => applyPrefs ts (bubbleToFront t s)

def sortCore (prefs : List Int) (l : List PaData) : List PaData :=
  (applyPrefs prefs ([], l)).1 ++ (applyPrefs prefs ([], l)).2

/-- Built-in fallback when the profile lookup fails: try PKINIT first. -/
def defaultPrefTypes : String := "17, 16, 15, 14"

/-- sort_krb5_padata_sequence: a NULL or empty list is returned untouched with
success; otherwise the list is reordered in place.  The function always
returns 0. -/
def sort_krb5_padata_sequence (prefOpt : Option String)
    (padata : Option (List PaData)) : ECode × Option (List PaData) :=
  match padata with
  | none => (ECode.noError, none)
  | some [] => (ECode.noError, some [])
  | some l =>
      let prefStr := prefOpt.getD defaultPrefTypes
      (ECode.noError, some (sortCore (parsePrefs prefStr.toList) l))

/-- Erasing an element that the predicate rejects does not change the filtered
list. -/
theorem filter_erase_eq {α : Type} [DecidableEq α] (p : α → Bool) (a : α)
    (h : p a = false) : ∀ l : List α, (l.erase a).filter p = l.filter p := by
  intro l
  induction l with
  | nil => rfl
  | cons b bs ih =>
    rw [List.erase_cons]
    by_cases hba : b = a
    · subst hba
      simp [h]
    · have hne : (b == a) = false := beq_false_of_ne hba
      rw [if_neg (by simp [hne])]
      cases hpb : p b <;> simp [List.filter_cons, hpb, ih]

/-- The bubble loop only permutes: the concatenation of done-prefix and rest
is a permutation of the original concatenation. -/
theorem applyPrefs_perm : ∀ (pl : List Int) (d r : List PaData),
    ((applyPrefs pl (d, r)).1 ++ (applyPrefs pl (d, r)).2).Perm (d ++ r) := by
  intro pl
  induction pl with
  | nil => intro d r; simp [applyPrefs]
  | cons t ts ih =>
    intro d r
    show ((applyPrefs ts (bubbleToFront t (d, r))).1 ++
        (applyPrefs ts (bubbleToFront t (d, r))).2).Perm (d ++ r)
    cases hf : (r.find? fun a => a.paType == t) with
    | none => simpa [bubbleToFront, hf] using ih d r
    | some a =>
      have hmem : a ∈ r := List.mem_of_find?_eq_some hf
      have hperm : r.Perm (a :: r.erase a) := List.perm_cons_erase hmem
      have h1 := ih (d ++ [a]) (r.erase a)
      rw [bubbleToFront, hf]
      refine h1.trans ?_
      have h3 : (d ++ [a]) ++ r.erase a = d ++ (a :: r.erase a) := by simp
      rw [h3]
      exact (hperm.symm).append_left d

/-- Entries whose type the preference list rejects are untouched by the bubble
loop: filtering by any predicate that is false on every preferred type yields
the same sublist before and after. -/
theorem applyPrefs_filter (p : PaData → Bool) :
    ∀ pl : List Int, (∀ t ∈ pl, ∀ a : PaData, a.paType = t → p a = false) →
    ∀ d r : List PaData,
      ((applyPrefs pl (d, r)).1 ++ (applyPrefs pl (d, r)).2).filter p
        = (d ++ r).filter p := by
  intro pl
  induction pl with
  | nil => intro _ d r; simp [applyPrefs]
  | cons t ts ih =>
    intro hp d r
    have hts : ∀ u ∈ ts, ∀ a : PaData, a.paType = u → p a = false := by
      intro u hu a ha
      exact hp u (List.mem_cons_of_mem t hu) a ha
    show ((applyPrefs ts (bubbleToFront t (d, r))).1 ++
        (applyPrefs ts (bubbleToFront t (d, r))).2).filter p = (d ++ r).filter p
    cases hf : (r.find? fun a => a.paType == t) with
    | none => rw [bubbleToFront, hf]; exact ih hts d r
    | some a =>
      have hat : a.paType = t := by
        have := List.find?_some hf
        simpa using this
      have hpa : p a = false := hp t (List.mem_cons_self t ts) a hat
      rw [bubbleToFront, hf]
      rw [ih hts (d ++ [a]) (r.erase a)]
      rw [List.filter_append, List.filter_append, List.filter_append]
      rw [filter_erase_eq p a hpa r]
      simp [List.filter_cons, hpa]

/-- Claim C9 (confirmed): for every preference configuration, the pre-auth
ordering function returns success and only permutes the list: a NULL list is
returned untouched, and a non-NULL list yields a permutation of the same
entries with the same length. -/
theorem claim_C9_theorem (prefOpt : Option String) :
    sort_krb5_padata_sequence prefOpt none = (ECode.noError, none)
    ∧ ∀ l : List PaData, ∃ lr : List PaData,
        sort_krb5_padata_sequence prefOpt (some l) = (ECode.noError, some lr)
        ∧ lr.Perm l ∧ lr.length = l.length := by
  refine ⟨rfl, ?_⟩
  intro l
  cases l with
  | nil => exact ⟨[], rfl, List.Perm.refl [], rfl⟩
  | cons a as =>
    refine ⟨sortCore (parsePrefs ((prefOpt.getD defaultPrefTypes).toList))
      (a :: as), rfl, ?_, ?_⟩
    · have h := applyPrefs_perm
        (parsePrefs ((prefOpt.getD defaultPrefTypes).toList)) [] (a :: as)
      simpa [sortCore] using h
    · have h := applyPrefs_perm
        (parsePrefs ((prefOpt.getD defaultPrefTypes).toList)) [] (a :: as)
      have := h.length_eq
      simpa [sortCore] using this

/-- A pa_data entry of a given type with empty contents (as the concrete test
lists of the spec use). -/
def pa (n : Int) : PaData := { paType := n, contents := [] }

/-- Claim C7 (confirmed): on [2, 1, 3] the ordering function yields [1, 2, 3]
under preference string 1 and [1, 3, 2] under preference string 1, 3; an empty
preference string leaves every list unchanged; types not named in the
preference string keep their original relative order; an unparseable token
ends preference parsing without error (so 1, x, 3 behaves like 1). -/
theorem claim_C7_theorem :
    sort_krb5_padata_sequence (some ("1")) (some [pa 2, pa 1, pa 3])
        = (ECode.noError, some [pa 1, pa 2, pa 3])
    ∧ sort_krb5_padata_sequence (some ("1, 3")) (some [pa 2, pa 1, pa 3])
        = (ECode.noError, some [pa 1, pa 3, pa 2])
    ∧ (∀ l : List PaData, sort_krb5_padata_sequence (some ("")) (some l)
        = (ECode.noError, some l))
    ∧ (∀ (prefs : List Int) (l : List PaData),
        (sortCore prefs l).filter (fun a => !(prefs.contains a.paType))
          = l.filter (fun a => !(prefs.contains a.paType)))
    ∧ parsePrefs (("1, x, 3").toList) = [1]
    ∧ sort_krb5_padata_sequence (some ("1, x, 3")) (some [pa 2, pa 1, pa 3])
        = (ECode.noError, some [pa 1, pa 2, pa 3]) := by
  refine ⟨by decide, by decide, ?_, ?_, by decide, by decide⟩
  · intro l
    cases l with
    | nil => rfl
    | cons a as =>
      show (ECode.noError, some (sortCore (parsePrefs (("").toList)) (a :: as)))
          = (ECode.noError, some (a :: as))
      have h1 : parsePrefs (("").toList) = [] := rfl
      rw [h1]
      simp [sortCore, applyPrefs]
  · intro prefs l
    have hside : ∀ t ∈ prefs, ∀ a : PaData, a.paType = t →
        (!(prefs.contains a.paType)) = false := by
      intro t ht a ha
      simp only [ha]
      show (!(List.elem t prefs)) = false
      rw [List.elem_iff.mpr ht]
      rfl
    have h := applyPrefs_filter (fun a => !(prefs.contains a.paType))
      prefs hside [] l
    simpa [sortCore] using h

/-!
## verify_as_reply (claim C2)

Translation of get_in_tkt.c:286-361.  The function first repairs a zero
starttime to the authtime (a compatibility fix, not a rejection), then checks
the cross-field invariants in the single large disjunction of lines 314-334;
any failure yields KRB5_KDCREP_MODIFIED.  Afterwards, with SYNC_KDCTIME the
local clock is adopted (krb5_set_real_time modelled as succeeding), otherwise
a clock-skew bound is enforced when request->from == 0.
-/

structure VerifyEnv where
  clockskew : Int
  syncKdcTime : Bool
deriving DecidableEq, Repr

def repairStarttime (e2 : EncPart2) : EncPart2 :=
  if e2.times.starttime = 0 then
    { e2 with times := { e2.times with starttime := e2.times.authtime } }
  else e2

theorem repairStarttime_server (e2 : EncPart2) :
    (repairStarttime e2).server = e2.server := by
  unfold repairStarttime
  split <;> rfl

/-- canon_req (get_in_tkt.c:306-307): the caller set the canonicalize flag or
the requested client is an enterprise principal. -/
def canonRequested (request : KdcReq) : Bool :=
  ((request.kdcOptions &&& KDC_OPT_CANONICALIZE) != 0) ||
    (request.client.ntype == KRB5_NT_ENTERPRISE_PRINCIPAL)

/-- canon_ok (get_in_tkt.c:308-312): a principal rewrite is sanctioned only
when canonicalization was requested and both the requested server and the
reply server are TGS principals. -/
def canonOk (request : KdcReq) (e2 : EncPart2) : Bool :=
  if canonRequested request then
    IS_TGS_PRINC request.server && IS_TGS_PRINC e2.server
  else false

/-- The large disjunction of get_in_tkt.c:314-334 (true means the reply is
rejected with KDCREP_MODIFIED). -/
def kdcrepModifiedCheck (request : KdcReq) (as_reply : KdcRep)
    (e2 : EncPart2) : Bool :=
  (!(canonOk request e2) &&
     (!(krb5_principal_compare as_reply.client request.client) ||
      !(krb5_principal_compare e2.server request.server)))
  || !(krb5_principal_compare e2.server as_reply.ticket.server)
  || decide (request.nonce ≠ e2.nonce)
  || (((request.kdcOptions &&& KDC_OPT_POSTDATED) != 0) &&
       decide (request.from_ ≠ 0) &&
       decide (request.from_ ≠ e2.times.starttime))
  || (decide (request.till ≠ 0) && decide (e2.times.endtime > request.till))
  || (((request.kdcOptions &&& KDC_OPT_RENEWABLE) != 0) &&
       decide (request.rtime ≠ 0) &&
       decide (e2.times.renew_till > request.rtime))
  || (((request.kdcOptions &&& KDC_OPT_RENEWABLE_OK) != 0) &&
       ((request.kdcOptions &&& KDC_OPT_RENEWABLE) == 0) &&
       ((e2.flags &&& KDC_OPT_RENEWABLE) != 0) &&
       decide (request.till ≠ 0) &&
       decide (e2.times.renew_till > request.till))

/-- verify_as_reply.  Returns the error code and the (possibly repaired)
decrypted enc-part, which the C code mutates in place. -/
def verify_as_reply (env : VerifyEnv) (time_now : Int) (request : KdcReq)
    (as_reply : KdcRep) (e2in : EncPart2) : ECode × EncPart2 :=
  let e2 := repairStarttime e2in
  if kdcrepModifiedCheck request as_reply e2 then (ECode.KDCREP_MODIFIED, e2)
  else if env.syncKdcTime then (ECode.noError, e2)
  else if decide (request.from_ = 0) &&
      decide (|e2.times.starttime - time_now| > env.clockskew) then
    (ECode.KDCREP_SKEW, e2)
  else (ECode.noError, e2)

theorem canonOk_iff (request : KdcReq) (e2 : EncPart2) :
    canonOk request e2 = true ↔
      (canonRequested request = true ∧ IS_TGS_PRINC request.server = true ∧
        IS_TGS_PRINC e2.server = true) := by
  unfold canonOk
  cases h : canonRequested request <;> simp [h]

/-- Claim C2 (confirmed): the verifier accepts a reply whose client differs
from the requested client only when canonicalization was requested and both
request.server and the reply enc-part server are TGS principals; in every
other case with a differing client it returns KDCREP_MODIFIED. -/
theorem claim_C2_theorem (env : VerifyEnv) (tn : Int) (req : KdcReq)
    (rep : KdcRep) (e2 : EncPart2) :
    ((verify_as_reply env tn req rep e2).1 = ECode.noError →
      krb5_principal_compare rep.client req.client = false →
      canonRequested req = true ∧ IS_TGS_PRINC req.server = true ∧
        IS_TGS_PRINC e2.server = true)
    ∧ (krb5_principal_compare rep.client req.client = false →
      ¬(canonRequested req = true ∧ IS_TGS_PRINC req.server = true ∧
          IS_TGS_PRINC e2.server = true) →
      (verify_as_reply env tn req rep e2).1 = ECode.KDCREP_MODIFIED) := by
  have hsrv := repairStarttime_server e2
  have hmain : krb5_principal_compare rep.client req.client = false →
      canonOk req (repairStarttime e2) = false →
      (verify_as_reply env tn req rep e2).1 = ECode.KDCREP_MODIFIED := by
    intro hmis hco
    have hcheck : kdcrepModifiedCheck req rep (repairStarttime e2) = true := by
      unfold kdcrepModifiedCheck
      simp [hmis, hco]
    unfold verify_as_reply
    simp [hcheck]
  constructor
  · intro hok hmis
    by_cases hco : canonOk req (repairStarttime e2) = true
    · have := (canonOk_iff req (repairStarttime e2)).mp hco
      rwa [hsrv] at this
    · have hcf : canonOk req (repairStarttime e2) = false :=
        Bool.eq_false_iff.mpr hco
      have := hmain hmis hcf
      rw [this] at hok
      exact absurd hok (by simp)
  · intro hmis hnot
    apply hmain hmis
    apply Bool.eq_false_iff.mpr
    intro hco
    apply hnot
    have := (canonOk_iff req (repairStarttime e2)).mp hco
    rwa [hsrv] at this

/-- Concrete principals for witnesses and counterexamples. -/
def aliceR : Principal := { realm := "R", comps := ["alice"], ntype := 0 }

def bobR : Principal := { realm := "R", comps := ["bob"], ntype := 0 }

def tgtR : Principal := { realm := "R", comps := ["krbtgt", "R"], ntype := 0 }

/-- A request as the step API builds it for client alice@R with no options. -/
def reqC2 : KdcReq :=
  { client := aliceR, server := tgtR, kdcOptions := 0, nonce := 42,
    from_ := 1000, till := 0, rtime := 0, ktype := [16, 23], padata := none }

def e2C2 : EncPart2 :=
  { server := tgtR, nonce := 42,
    times := { authtime := 1000, starttime := 1000, endtime := 2000,
               renew_till := 0 },
    flags := 0, session := [1, 2, 3], caddrs := [] }

def repC2 : KdcRep :=
  { msgType := 11, client := bobR, ticket := { server := tgtR },
    encPartEnctype := 16, encPart2 := some e2C2, padata := none }

/-- Claim C2 witness: a reply whose client (bob@R) differs from the requested
client (alice@R) without canonicalization is rejected with KDCREP_MODIFIED. -/
theorem claim_C2_witness :
    (verify_as_reply { clockskew := 300, syncKdcTime := false } 1000 reqC2
      repC2 e2C2).1 = ECode.KDCREP_MODIFIED := by
  exact (claim_C2_theorem { clockskew := 300, syncKdcTime := false } 1000
    reqC2 repC2 e2C2).2 (by decide) (by decide)

/-!
## decrypt_as_reply (claim C8)

Translation of get_in_tkt.c:241-284.  The key-derivation callback (key_proc)
and the decryption callback (decrypt_proc) are the C function pointers,
modelled as fields of `DecryptCallbacks`; the outcome records whether each
callback was invoked, mirroring the observable calls of the C code.
krb5_principal2salt is modelled as always succeeding (its failure path merely
propagates an allocation error).
-/

structure DecryptCallbacks where
  principal2salt : Principal → List Nat
  keyProc : Int → List Nat → Except ECode (List Nat)
  decryptProc : List Nat → KdcRep → Except ECode EncPart2

structure DecryptOutcome where
  retval : ECode
  reply : KdcRep
  keyProcCalled : Bool
  decryptProcCalled : Bool
deriving DecidableEq, Repr

def runDecryptProc (cb : DecryptCallbacks) (as_reply : KdcRep)
    (k : List Nat) (keyCalled : Bool) : DecryptOutcome :=
  match cb.decryptProc k as_reply with
  | .error e => ⟨e, as_reply, keyCalled, true⟩
  | .ok e2 => ⟨ECode.noError, { as_reply with encPart2 := some e2 },
      keyCalled, true⟩

/-- decrypt_as_reply: an already-decrypted reply (enc_part2 present) returns
success immediately; otherwise the caller-supplied key is used directly, or a
key is derived from the salt of the reply client via key_proc. -/
def decrypt_as_reply (cb : DecryptCallbacks) (as_reply : KdcRep)
    (key : Option (List Nat)) : DecryptOutcome :=
  if (as_reply.encPart2).isSome then ⟨ECode.noError, as_reply, false, false⟩
  else
    match key with
    | some k => runDecryptProc cb as_reply k false
    | none =>
      let salt := cb.principal2salt as_reply.client
      match cb.keyProc as_reply.encPartEnctype salt with
      | .error e => ⟨e, as_reply, true, false⟩
      | .ok k => runDecryptProc cb as_reply k true

/-- Claim C8 (confirmed): when the AS-REP already carries a decrypted
enc-part, decrypt_as_reply returns success at once, for every key argument,
without invoking the key-derivation or decryption callbacks and without
changing the reply. -/
theorem claim_C8_theorem (cb : DecryptCallbacks) (as_reply : KdcRep)
    (key : Option (List Nat)) (e2 : EncPart2)
    (h : as_reply.encPart2 = some e2) :
    decrypt_as_reply cb as_reply key =
      ⟨ECode.noError, as_reply, false, false⟩ := by
  unfold decrypt_as_reply
  simp [h]

def cbC8 : DecryptCallbacks :=
  { principal2salt := fun p => p.comps.map String.length
    keyProc := fun _ _ => .ok [7]
    decryptProc := fun _ _ => .error (ECode.hookFailure 1) }

def repC8 : KdcRep :=
  { msgType := 11, client := aliceR, ticket := { server := tgtR },
    encPartEnctype := 16, encPart2 := some e2C2, padata := none }

/-- Claim C8 witness: the theorem evaluated on a concretely pre-decrypted
reply (with callbacks that would fail if they were ever invoked). -/
theorem claim_C8_witness :
    decrypt_as_reply cbC8 repC8 none =
      ⟨ECode.noError, repC8, false, false⟩ := by
  exact claim_C8_theorem cbC8 repC8 none e2C2 (by decide)

/-!
## krb5_init_creds_get_error (claim C10)

Translation of get_in_tkt.c:1162-1214.  The function deep-copies the retained
error; allocation failures are not modelled (k5alloc and the copy helpers only
fail with ENOMEM).  The context is represented here by its err_reply field,
the only one the function reads.
-/

def copyError (e : KrbError) : KrbError :=
  { ctime := e.ctime, cusec := e.cusec, susec := e.susec, stime := e.stime,
    error := e.error, client := e.client, server := e.server,
    text := e.text, eData := e.eData }

def krb5_init_creds_get_error (errReply : Option KrbError) :
    ECode × Option KrbError :=
  match errReply with
  | none => (ECode.noError, none)
  | some e => (ECode.noError, some (copyError e))

/-- Claim C10 (confirmed): with no retained KRB-ERROR on the context,
krb5_init_creds_get_error returns success and a NULL error pointer. -/
theorem claim_C10_theorem (errReply : Option KrbError)
    (h : errReply = none) :
    krb5_init_creds_get_error errReply = (ECode.noError, none) := by
  rw [h]
  rfl

/-- Claim C10 witness: the theorem evaluated at the empty context. -/
theorem claim_C10_witness :
    krb5_init_creds_get_error none = (ECode.noError, none) := by
  exact claim_C10_theorem none rfl

/-!
## Reply classification (claim C5)

The classifier appears twice: inline in send_as_request (get_in_tkt.c:170-228)
and in init_creds_validate_reply (get_in_tkt.c:1464-1533).  The tag tests
krb5_is_krb_error / krb5_is_as_rep and the ASN.1 decoders are external
(k5-int.h macros and codec library), modelled as the `Codec` parameter.  Reply
bytes are lists of octet values; C reads reply->data[0] and reply->data[1]
unconditionally in send_as_request (an out-of-bounds read for shorter
replies), modelled with getD defaulting to 0.  The C assignment
`t_switch = reply.data[1]; t_switch &= ~1` clears the low bit; for octet
values the test `t_switch == (5<<1)` is equivalent to `(byte &&& 254) == 10`
(char-signedness of values at or above 128 cannot make the masked value 10).
-/

structure Codec where
  isKrbError : List Nat → Bool
  isAsRep : List Nat → Bool
  decodeError : List Nat → Except ECode KrbError
  decodeAsRep : List Nat → Except ECode KdcRep

inductive ValidateResult where
  | errorStored (e : KrbError)
  | replyStored (r : KdcRep)
  | failed (code : ECode)
deriving DecidableEq, Repr

/-- init_creds_validate_reply, minus the initial freeing of the previous
err_reply/reply (performed by the caller model).  A KRB-ERROR carrying
protocol code 52 is turned into the KRB5KRB_ERR_RESPONSE_TOO_BIG return;
other errors are retained.  The V4 check only runs for nonempty replies. -/
def init_creds_validate_reply (c : Codec) (reply : List Nat) : ValidateResult :=
  if c.isKrbError reply then
    match c.decodeError reply with
    | .error code => .failed code
    | .ok err =>
      if err.error == KRB_ERR_RESPONSE_TOO_BIG then
        .failed ECode.RESPONSE_TOO_BIG
      else .errorStored err
  else if reply.length != 0 && !(c.isAsRep reply) then
    let t_switch := (reply.getD 1 0) &&& 254
    if t_switch == 10 && reply.getD 0 0 == 4 then .failed ECode.V4_REPLY
    else .failed ECode.MSG_TYPE
  else
    match c.decodeAsRep reply with
    | .error code => .failed code
    | .ok rep =>
      if rep.msgType != KRB5_AS_REP then .failed ECode.MSG_TYPE
      else .replyStored rep

inductive SendResult where
  | gotError (e : KrbError)
  | gotReply (r : KdcRep)
  | failed (code : ECode)
deriving DecidableEq, Repr

/-- The classification send_as_request performs on one received reply.
k4_version is the first byte of the outgoing request packet
(`k4_version = packet->data[0]`, get_in_tkt.c:158): the V4 test also accepts
a reply whose first byte equals it. -/
def send_as_request_once (c : Codec) (k4_version : Nat) (reply : List Nat) :
    SendResult :=
  if c.isKrbError reply then
    match c.decodeError reply with
    | .error code => .failed code
    | .ok err => .gotError err
  else if !(c.isAsRep reply) then
    let t_switch := (reply.getD 1 0) &&& 254
    if t_switch == 10 &&
        (reply.getD 0 0 == 4 || reply.getD 0 0 == k4_version) then
      .failed ECode.V4_REPLY
    else .failed ECode.MSG_TYPE
  else
    match c.decodeAsRep reply with
    | .error code => .failed code
    | .ok rep =>
      if rep.msgType != KRB5_AS_REP then .failed ECode.MSG_TYPE
      else .gotReply rep

/-- send_as_request with the transport (krb5_sendto_kdc) as a hook indexed by
the tcp_only flag.  A KRB-ERROR with code RESPONSE_TOO_BIG received with
tcp_only == 0 triggers exactly one retry with tcp_only = 1 (the send_again
loop: tcp_only is monotone, so at most two attempts happen). -/
def send_as_request (c : Codec) (sendtoKdc : Bool → Except ECode (List Nat))
    (packet : List Nat) : SendResult :=
  let k4 := packet.getD 0 0
  match sendtoKdc false with
  | .error e => .failed e
  | .ok reply =>
    match send_as_request_once c k4 reply with
    | .gotError err =>
      if err.error == KRB_ERR_RESPONSE_TOO_BIG then
        match sendtoKdc true with
        | .error e => .failed e
        | .ok reply2 => send_as_request_once c k4 reply2
      else .gotError err
    | r => r

/-- A codec instance with the real DER application-tag tests of the k5-int.h
macros (tag 30 for KRB-ERROR, tag 11 for AS-REP: first byte masked with ~0x20
compared against tag | 0x40); the decoders reject everything, which is enough
for inputs that never reach them. -/
def derCodec : Codec :=
  { isKrbError := fun bs => bs.length != 0 && ((bs.getD 0 0) &&& 223) == 94
    isAsRep := fun bs => bs.length != 0 && ((bs.getD 0 0) &&& 223) == 75
    decodeError := fun _ => .error (ECode.decodeFailure 0)
    decodeAsRep := fun _ => .error (ECode.decodeFailure 1) }

/-- Claim C5 counterexample: the reply [0x6a, 0x0a] is neither a KRB-ERROR nor
an AS-REP and its first byte is 0x6a ≠ 4, so per the claim the classifier must
return BAD_MSG_TYPE; but send_as_request, sending a packet whose first byte is
0x6a (the DER tag every encoded AS-REQ starts with), classifies it as
V4_REPLY because the first reply byte equals k4_version. -/
theorem claim_C5_counterexample :
    derCodec.isKrbError [106, 10] = false
    ∧ derCodec.isAsRep [106, 10] = false
    ∧ List.getD [106, 10] 0 0 ≠ 4
    ∧ send_as_request derCodec (fun _ => .ok [106, 10]) [106]
        = .failed ECode.V4_REPLY := by
  refine ⟨by decide, by decide, by decide, by decide⟩

/-- Claim C5 (corrected): for replies that are neither KRB-ERROR nor AS-REP by
tag, the step-API validator returns V4_REPLY exactly when reply[1] & ~1 = 5<<1
and reply[0] = 4 (BAD_MSG_TYPE otherwise, for nonempty replies — an empty
reply instead falls through to the AS-REP decoder); send_as_request
additionally returns V4_REPLY when reply[0] equals the first byte of the
request packet. -/
theorem claim_C5_theorem (c : Codec) (k4 : Nat) (reply : List Nat)
    (h1 : c.isKrbError reply = false) (h2 : c.isAsRep reply = false) :
    send_as_request_once c k4 reply =
      .failed (if ((reply.getD 1 0) &&& 254) == 10 &&
          (reply.getD 0 0 == 4 || reply.getD 0 0 == k4) then ECode.V4_REPLY
        else ECode.MSG_TYPE)
    ∧ (reply.length ≠ 0 →
      init_creds_validate_reply c reply =
        .failed (if ((reply.getD 1 0) &&& 254) == 10 &&
            reply.getD 0 0 == 4 then ECode.V4_REPLY
          else ECode.MSG_TYPE)) := by
  constructor
  · unfold send_as_request_once
    rw [h1, h2]
    simp only [Bool.false_eq_true, if_false, Bool.not_false, if_true]
    split <;> rfl
  · intro hlen
    unfold init_creds_validate_reply
    rw [h1, h2]
    have hl : (reply.length != 0) = true := by
      simpa using hlen
    simp only [Bool.false_eq_true, if_false, Bool.not_false, hl,
      Bool.and_self, if_true]
    split <;> rfl

/-- Claim C5 witness: the corrected classification applied to the concrete
junk reply [0, 0] (both classifiers return BAD_MSG_TYPE). -/
theorem claim_C5_witness :
    derCodec.isKrbError [0, 0] = false
    ∧ derCodec.isAsRep [0, 0] = false
    ∧ send_as_request_once derCodec 0 [0, 0] = .failed ECode.MSG_TYPE
    ∧ init_creds_validate_reply derCodec [0, 0] = .failed ECode.MSG_TYPE := by
  have h := claim_C5_theorem derCodec 0 [0, 0] (by decide) (by decide)
  refine ⟨by decide, by decide, ?_, ?_⟩
  · rw [h.1]; decide
  · rw [h.2 (by decide)]; decide

/-!
## stash_as_reply

Translation of get_in_tkt.c:363-444.  Allocation failures and the credential
cache store (NULL in the step API; modelled as succeeding in the loop API) are
not failure sources here, so the function always succeeds.  encode_krb5_ticket
is deterministic, so the encoded ticket is the ticket value.
-/

def stash_as_reply (as_reply : KdcRep) (creds : Creds) : ECode × Creds :=
  match as_reply.encPart2 with
  | none => (ECode.GENERIC, creds)
  | some e2 =>
    let client := if creds.client.isNone then some as_reply.client
      else creds.client
    let server := if creds.server.isNone then some e2.server
      else creds.server
    (ECode.noError,
     { client := client, server := server, keyblock := e2.session,
       times := e2.times, isSkey := false, ticketFlags := e2.flags,
       addresses := e2.caddrs, secondTicket := [],
       ticket := some as_reply.ticket })

/-!
## The step API (krb5_init_creds_step and helpers; claims C1, C3, C4)

The context (krb5_init_creds_context, init_creds_ctx.h) is modelled with the
fields get_in_tkt.c reads and writes.  The external collaborators — FAST
(krb5int_fast_*), the pre-auth dispatcher (krb5_do_preauth and
krb5_do_preauth_tryagain), the get-as-key callback (gak_fct), the reply
decryption primitive (krb5_kdc_rep_decrypt_proc), krb5_parse_name, profile
lookup and krb5_timeofday — are the fields of `StepHooks`, mirroring the
function pointers and library calls of the C source.  DER encoding
(krb5int_fast_prep_req with encode_krb5_as_req) is deterministic and
injective, so encoded requests are modelled as snapshots of the value passed
to the encoder; equality of snapshots is equality of the encoded bytes.

Note: request->till is never assigned in this code version's step API (the
zero-filled allocation leaves it 0 and ctx->tkt_life is computed but unused),
so the model's initial contexts carry till = 0.
-/

structure Ctx where
  request : KdcReq
  errReply : Option KrbError
  reply : Option KdcRep
  loopcount : Nat
  preauthToUse : Option (List PaData)
  encodedRequestBody : Option KdcReq
  encodedPreviousRequest : Option KdcReq
  salt : Option (List Nat)
  s2kparams : List Nat
  etype : Int
  asKey : List Nat
  requestTime : Int
  startTime : Int
  tktLife : Int
  renewLife : Int
  inTktService : Option String
  cred : Creds
deriving DecidableEq, Repr

structure StepHooks where
  prefFor : String → Option String
  timeNow : Int
  verifyEnv : VerifyEnv
  principal2salt : Principal → List Nat
  parseService : String → Except ECode Principal
  fastProcessError :
    KrbError → Except ECode (KrbError × Option (List PaData) × Bool)
  fastProcessResponse : KdcRep → Except ECode (Option (List Nat))
  fastReplyKey : Option (List Nat) → List Nat → Except ECode (List Nat)
  fastAsArmor : KdcReq → Except ECode KdcReq
  fastPrepReqBody : KdcReq → Except ECode KdcReq
  fastPrepReq : KdcReq → Option KdcReq → Except ECode KdcReq
  doPreauth : KdcReq → Option KdcReq → Option KdcReq → Option (List PaData) →
    Option (List Nat) → List Nat → Int → List Nat →
    Except ECode
      (Option (List PaData) × Option (List Nat) × List Nat × Int × List Nat)
  doPreauthTryagain : KdcReq → Option KdcReq → Option KdcReq → List PaData →
    KrbError → Option (List Nat) → List Nat → Int → List Nat →
    Except ECode
      (Option (List PaData) × Option (List Nat) × List Nat × Int × List Nat)
  gakFct : Principal → Int → Option (List Nat) → List Nat →
    Except ECode (List Nat)
  decryptRep : List Nat → KdcRep → Except ECode EncPart2

/-- The decrypt_as_reply invocations inside init_creds_step_reply always pass
key_proc = NULL together with an explicit encrypting key, so the key
derivation callback can never be reached; it is modelled as a failing hook. -/
def stepDecryptCb (h : StepHooks) : DecryptCallbacks :=
  { principal2salt := h.principal2salt
    keyProc := fun _ _ => .error (ECode.hookFailure 0)
    decryptProc := h.decryptRep }

/-- build_in_tkt_name (get_in_tkt.c:1015-1059): parse the service string and
force its realm to the client realm, or synthesize krbtgt/<realm>@<realm>
(krb5_build_principal_ext leaves the name type KRB5_NT_UNKNOWN = 0). -/
def build_in_tkt_name (parseService : String → Except ECode Principal)
    (in_tkt_service : Option String) (client : Principal) :
    Except ECode Principal :=
  match in_tkt_service with
  | some s =>
    match parseService s with
    | .error e => .error e
    | .ok serv => .ok { serv with realm := client.realm }
  | none =>
    .ok { realm := client.realm, comps := ["krbtgt", client.realm],
          ntype := 0 }

structure StepReplyOut where
  code : ECode
  ctx : Ctx
  complete : Bool
deriving DecidableEq, Repr

/-- Tail of init_creds_step_reply after a successful decryption: verify the
reply (which repairs a zero starttime in place) and stash the credential; on
success the COMPLETE flag is set.  The none branch cannot be reached: every
caller has just decrypted the reply. -/
def finishVerify (h : StepHooks) (ctx0 : Ctx) (rep : KdcRep) : StepReplyOut :=
  match rep.encPart2 with
  | none => ⟨ECode.GENERIC, ctx0, false⟩
  | some e2 =>
    let v := verify_as_reply h.verifyEnv ctx0.requestTime ctx0.request rep e2
    let rep2 := { rep with encPart2 := some v.2 }
    let ctx := { ctx0 with reply := some rep2 }
    if v.1 != ECode.noError then ⟨v.1, ctx, false⟩
    else
      let st := stash_as_reply rep2 ctx.cred
      if st.1 != ECode.noError then ⟨st.1, ctx, false⟩
      else ⟨ECode.noError, { ctx with cred := st.2 }, true⟩

/-- The KRB-ERROR branch of init_creds_step_reply (get_in_tkt.c:1561-1599).
The error is already retained on the context (validate stored it);
krb5int_fast_process_error may replace it.  A PREAUTH_REQUIRED error with
retry resets preauth_to_use (sorted) and continues; a WRONG_REALM error under
canonicalization rewrites the client realm (the server principal is rebuilt
from it on the next init_creds_step_request); otherwise retry continues and
anything else surfaces error + ERROR_TABLE_BASE_krb5.  Note this code version
does not clear err_reply in the PREAUTH_REQUIRED branch, so the next
step_request takes the tryagain path. -/
def stepReplyError (h : StepHooks) (ctx : Ctx) (err : KrbError) :
    StepReplyOut :=
  let canon : Bool :=
    ((ctx.request.kdcOptions &&& KDC_OPT_CANONICALIZE) != 0) ||
      (ctx.request.client.ntype == KRB5_NT_ENTERPRISE_PRINCIPAL)
  match h.fastProcessError err with
  | .error e => ⟨e, ctx, false⟩
  | .ok (err2, padata, retry) =>
    let ctx2 := { ctx with errReply := some err2 }
    if err2.error == KDC_ERR_PREAUTH_REQUIRED && retry then
      let s := sort_krb5_padata_sequence
        (h.prefFor ctx2.request.client.realm) padata
      ⟨s.1, { ctx2 with preauthToUse := s.2 }, false⟩
    else if canon && (err2.error == KDC_ERR_WRONG_REALM) then
      match err2.client with
      | none => ⟨kdcSurfaced KDC_ERR_WRONG_REALM, ctx2, false⟩
      | some ec =>
        if ec.realm.length == 0 then
          ⟨kdcSurfaced KDC_ERR_WRONG_REALM, ctx2, false⟩
        else
          ⟨ECode.noError,
            { ctx2 with request := { ctx2.request with
                client := { ctx2.request.client with realm := ec.realm } } },
            false⟩
    else
      if retry then ⟨ECode.noError, ctx2, false⟩
      else ⟨kdcSurfaced err2.error, ctx2, false⟩

/-- The AS-REP branch of init_creds_step_reply (get_in_tkt.c:1601-1717): loop
bound check, FAST response processing, sorting of reply padata, pre-auth
response processing (whose out_padata goes to the local kdc_padata, which is
only freed), default salt derivation, then decryption with the current AS key
with a single retry through gak_fct, then verify and stash. -/
def stepReplyAsRep (h : StepHooks) (ctx0 : Ctx) (rep0 : KdcRep) :
    StepReplyOut :=
  let ctx := { ctx0 with reply := some rep0 }
  if MAX_IN_TKT_LOOPS ≤ ctx.loopcount then ⟨ECode.GET_IN_TKT_LOOP, ctx, false⟩
  else
    match h.fastProcessResponse rep0 with
    | .error e => ⟨e, ctx, false⟩
    | .ok strengthenKey =>
      let s := sort_krb5_padata_sequence
        (h.prefFor ctx.request.client.realm) rep0.padata
      if s.1 != ECode.noError then ⟨s.1, ctx, false⟩
      else
        let rep := { rep0 with padata := s.2 }
        let ctx := { ctx with reply := some rep, etype := rep.encPartEnctype }
        match h.doPreauth ctx.request ctx.encodedRequestBody
            ctx.encodedPreviousRequest rep.padata ctx.salt ctx.s2kparams
            ctx.etype ctx.asKey with
        | .error e => ⟨e, ctx, false⟩
        | .ok (_kdcPadata, salt2, s2k2, etype2, asKey2) =>
          let ctx := { ctx with
            salt := salt2
            s2kparams := s2k2
            etype := etype2
            asKey := asKey2 }
          let ctx := if ctx.salt.isNone then
              { ctx with salt := some (h.principal2salt rep.client) }
            else ctx
          let attempt1 : Sum ECode (ECode × KdcRep) :=
            if ctx.asKey.length != 0 then
              match h.fastReplyKey strengthenKey ctx.asKey with
              | .error e => Sum.inl e
              | .ok encKey =>
                let d := decrypt_as_reply (stepDecryptCb h) rep (some encKey)
                Sum.inr (d.retval, d.reply)
            else Sum.inr (ECode.retryMarker, rep)
          match attempt1 with
          | Sum.inl e => ⟨e, ctx, false⟩
          | Sum.inr (c1, rep1) =>
            if c1 == ECode.noError then
              finishVerify h { ctx with reply := some rep1 } rep1
            else
              match h.gakFct ctx.request.client rep.encPartEnctype ctx.salt
                  ctx.s2kparams with
              | .error e => ⟨e, ctx, false⟩
              | .ok asKey3 =>
                let ctx := { ctx with asKey := asKey3 }
                match h.fastReplyKey strengthenKey asKey3 with
                | .error e => ⟨e, ctx, false⟩
                | .ok encKey2 =>
                  let d2 := decrypt_as_reply (stepDecryptCb h) rep
                    (some encKey2)
                  let ctx := { ctx with reply := some d2.reply }
                  if d2.retval != ECode.noError then ⟨d2.retval, ctx, false⟩
                  else finishVerify h ctx d2.reply

/-- init_creds_step_reply (get_in_tkt.c:1535-1726): validate the incoming
bytes (which first frees the previously retained err_reply and reply), then
dispatch on KRB-ERROR versus AS-REP. -/
def init_creds_step_reply (h : StepHooks) (c : Codec) (ctx0 : Ctx)
    (in_ : List Nat) : StepReplyOut :=
  let ctx := { ctx0 with errReply := none, reply := none }
  match init_creds_validate_reply c in_ with
  | .failed code => ⟨code, ctx, false⟩
  | .errorStored err => stepReplyError h { ctx with errReply := some err } err
  | .replyStored rep => stepReplyAsRep h ctx rep

structure StepReqOut where
  code : ECode
  ctx : Ctx
  out : Option KdcReq
deriving DecidableEq, Repr

/-- Tail of init_creds_step_request (get_in_tkt.c:1830-1846): free the
previous encoded request, FAST-wrap and encode the current request into
encoded_previous_request, and copy it to out. -/
def emitRequest (h : StepHooks) (ctx0 : Ctx) : StepReqOut :=
  let ctx := { ctx0 with encodedPreviousRequest := none }
  match h.fastPrepReq ctx.request ctx.encodedRequestBody with
  | .error e => ⟨e, ctx, none⟩
  | .ok enc =>
    ⟨ECode.noError, { ctx with encodedPreviousRequest := some enc }, some enc⟩

/-- The pre-auth phase of init_creds_step_request (get_in_tkt.c:1776-1828):
with no retained error, krb5_do_preauth prepares the padata; with a retained
error, krb5_do_preauth_tryagain is consulted when a preauth_to_use list
exists, and any failure (including the missing-list KRB5KRB_ERR_GENERIC) is
replaced by the retained error + ERROR_TABLE_BASE_krb5. -/
def stepRequestPreauth (h : StepHooks) (ctx : Ctx) : StepReqOut :=
  match ctx.errReply with
  | none =>
    match h.doPreauth ctx.request ctx.encodedRequestBody
        ctx.encodedPreviousRequest ctx.preauthToUse ctx.salt ctx.s2kparams
        ctx.etype ctx.asKey with
    | .error e => ⟨e, ctx, none⟩
    | .ok (outPadata, salt2, s2k2, etype2, asKey2) =>
      emitRequest h { ctx with
        request := { ctx.request with padata := outPadata }
        salt := salt2
        s2kparams := s2k2
        etype := etype2
        asKey := asKey2 }
  | some er =>
    match ctx.preauthToUse with
    | some ptu =>
      match h.doPreauthTryagain ctx.request ctx.encodedRequestBody
          ctx.encodedPreviousRequest ptu er ctx.salt ctx.s2kparams
          ctx.etype ctx.asKey with
      | .error _ => ⟨kdcSurfaced er.error, ctx, none⟩
      | .ok (outPadata, salt2, s2k2, etype2, asKey2) =>
        emitRequest h { ctx with
          request := { ctx.request with padata := outPadata }
          salt := salt2
          s2kparams := s2k2
          etype := etype2
          asKey := asKey2 }
    | none => ⟨kdcSurfaced er.error, ctx, none⟩

/-- init_creds_step_request (get_in_tkt.c:1728-1850): rebuild the server
principal from the (possibly referred) client realm, perform the
first-iteration setup (request_time, FAST armor, encoded request body, from
and rtime via saturating addition, clearing RENEWABLE_OK when a renewable
lifetime was requested), then run the pre-auth phase and emit the encoded
request.  On a build failure the C code leaves request->server NULL; the
model keeps the previous value, observable only after a failed call. -/
def init_creds_step_request (h : StepHooks) (ctx0 : Ctx) : StepReqOut :=
  match build_in_tkt_name h.parseService ctx0.inTktService
      ctx0.request.client with
  | .error e => ⟨e, ctx0, none⟩
  | .ok serv =>
    let ctx := { ctx0 with request := { ctx0.request with server := serv } }
    if ctx.loopcount == 0 then
      let ctx := { ctx with requestTime := h.timeNow }
      match h.fastAsArmor ctx.request with
      | .error e => ⟨e, ctx, none⟩
      | .ok req2 =>
        let ctx := { ctx with request := req2 }
        match h.fastPrepReqBody ctx.request with
        | .error e => ⟨e, ctx, none⟩
        | .ok body =>
          let ctx := { ctx with encodedRequestBody := some body }
          let newFrom := krb5int_addint32 ctx.requestTime ctx.startTime
          let ctx :=
            { ctx with request := { ctx.request with from_ := newFrom } }
          let ctx :=
            if ctx.renewLife > (0 : Int) then
              let rt0 := krb5int_addint32 newFrom ctx.renewLife
              let rt := if rt0 < ctx.request.till then ctx.request.till
                else rt0
              { ctx with request := { ctx.request with
                  rtime := rt
                  kdcOptions := ctx.request.kdcOptions &&&
                    (4294967295 ^^^ KDC_OPT_RENEWABLE_OK) } }
            else { ctx with request := { ctx.request with rtime := 0 } }
          stepRequestPreauth h ctx
    else stepRequestPreauth h ctx

structure StepOut where
  code : ECode
  ctx : Ctx
  out : Option KdcReq
  realm : Option String
  complete : Bool
deriving DecidableEq, Repr

/-- The step_request half of krb5_init_creds_step (get_in_tkt.c:1881-1893):
on failure out keeps whatever was already placed in it (the RESPONSE_TOO_BIG
copy, if any); on success out is overwritten with the newly encoded request,
realm is copied from the rebuilt server principal, and loopcount is
incremented. -/
def stepRequestPhase (h : StepHooks) (ctx : Ctx) (outPrev : Option KdcReq) :
    StepOut :=
  let q := init_creds_step_request h ctx
  if q.code != ECode.noError then ⟨q.code, q.ctx, outPrev, none, false⟩
  else ⟨ECode.noError, { q.ctx with loopcount := q.ctx.loopcount + 1 },
    q.out, some q.ctx.request.server.realm, false⟩

/-- krb5_init_creds_step (get_in_tkt.c:1852-1909).  out and realm start
empty.  A nonempty `in` is processed by init_creds_step_reply; a resulting
KRB5KRB_ERR_RESPONSE_TOO_BIG makes the code copy encoded_previous_request
into out and — the copy having returned 0 and COMPLETE being unset — fall
through to init_creds_step_request, which overwrites out with a freshly built
request (there is no early return after the copy in this code version).  The
copy itself is modelled as succeeding; C would fault if no request had ever
been encoded.  The C_PRINCIPAL_UNKNOWN message enrichment at cleanup only
edits the human-readable error text and is not modelled. -/
def krb5_init_creds_step (h : StepHooks) (c : Codec) (ctx : Ctx)
    (in_ : List Nat) : StepOut :=
  if in_.length != 0 then
    let r := init_creds_step_reply h c ctx in_
    if r.code == ECode.RESPONSE_TOO_BIG then
      stepRequestPhase h r.ctx r.ctx.encodedPreviousRequest
    else if r.code != ECode.noError || r.complete then
      ⟨r.code, r.ctx, none, none, r.complete⟩
    else stepRequestPhase h r.ctx none
  else stepRequestPhase h ctx none

inductive GetExtResult where
  | finished (code : ECode) (ctx : Ctx)
  | outOfFuel (ctx : Ctx)
deriving DecidableEq, Repr

/-- The driver loop of krb5int_init_creds_get_ext (get_in_tkt.c:1124-1145),
fuel-indexed because the C loop is unbounded.  A RESPONSE_TOO_BIG return from
step with tcp_only still clear switches to TCP and resends; otherwise a
nonzero code or COMPLETE ends the loop; else the request is sent and the
reply fed into the next step call.  The catch-all branches are unreachable
(a successful step always produces out and realm) and exist for totality. -/
def getExtLoop (h : StepHooks) (c : Codec)
    (transport : KdcReq → String → Bool → Except ECode (List Nat)) :
    Nat → Ctx → List Nat → Bool → GetExtResult
  | 0, ctx, _, _ => .outOfFuel ctx
  | fuel + 1, ctx, reply, tcpOnly =>
    let s := krb5_init_creds_step h c ctx reply
    if s.code == ECode.RESPONSE_TOO_BIG && !tcpOnly then
      match s.out, s.realm with
      | some req, some realm =>
        match transport req realm true with
        | .error e => .finished e s.ctx
        | .ok reply2 => getExtLoop h c transport fuel s.ctx reply2 true
      | _, _ => .finished ECode.GENERIC s.ctx
    else if s.code != ECode.noError || s.complete then .finished s.code s.ctx
    else
      match s.out, s.realm with
      | some req, some realm =>
        match transport req realm tcpOnly with
        | .error e => .finished e s.ctx
        | .ok reply2 => getExtLoop h c transport fuel s.ctx reply2 tcpOnly
      | _, _ => .finished ECode.GENERIC s.ctx

/-- krb5int_init_creds_get_ext (get_in_tkt.c:1100-1152): if an AS-REP is
already retained on the context the call returns immediately with success
("we're finished") and the context untouched; otherwise the driver loop runs
starting from an empty reply. -/
def krb5int_init_creds_get_ext (h : StepHooks) (c : Codec)
    (transport : KdcReq → String → Bool → Except ECode (List Nat))
    (fuel : Nat) (ctx : Ctx) : GetExtResult :=
  if ctx.reply.isSome then .finished ECode.noError ctx
  else getExtLoop h c transport fuel ctx [] false

/-!
## krb5_get_in_tkt (the all-in-one negotiation loop; claim C1)

Translation of get_in_tkt.c:548-816.  The old-style pre-auth hooks
(krb5_obtain_padata, krb5_process_padata) and krb5_timeofday are the fields of
`GitHooks`; one full send_as_request round (transport plus classification,
including its internal RESPONSE_TOO_BIG TCP retry) is abstracted as one
`SendResult` consumed from a script list, so the loop-control structure of
the C while-loop is preserved verbatim: the `loopcount++ > MAX_IN_TKT_LOOPS`
check runs at the top of every iteration, before any transmission.
KRB5_REFERRAL_MAXHOPS lives in krb5.h, outside this file, and is passed as
the `maxhops` parameter.  The request-setup details the claims never touch
(address list selection and the caller-ktypes reordering of lines 632-657)
are elided: the request starts from the built-in get_in_tkt_enctypes list.
-/

/-- tgt_is_local_realm (get_in_tkt.c:539-546). -/
def tgt_is_local_realm (client server : Principal) : Bool :=
  server.comps.length == 2 && server.comps.take 1 == ["krbtgt"] &&
    server.comps.drop 1 == [client.realm] && server.realm == client.realm

/-- rewrite_server_realm (get_in_tkt.c:499-537): copy the original server,
replace its realm, and when the request is for a TGT also replace the second
name component. -/
def rewrite_server_realm (old_server : Principal) (realm : String)
    (tgs : Bool) : Principal :=
  let s := { old_server with realm := realm }
  if tgs then { s with comps := s.comps.set 1 realm } else s

/-- make_preauth_list (get_in_tkt.c:446-487): pa_data entries with the given
types and empty contents. -/
def make_preauth_list (ptypes : List Int) : List PaData :=
  ptypes.map (fun t => { paType := t, contents := [] })

/-- The built-in enctype list get_in_tkt_enctypes (get_in_tkt.c:490-497):
des3-cbc-sha1, arcfour-hmac, des-cbc-md5, des-cbc-md4, des-cbc-crc. -/
def get_in_tkt_enctypes : List Int := [16, 23, 3, 2, 1]

structure GitState where
  request : KdcReq
  loopcount : Nat
  referralCount : Nat
  canonFlag : Bool
  isTgtReq : Bool
  origServer : Principal
  preauthToUse : Option (List PaData)
  decryptKey : Option (List Nat)
deriving DecidableEq, Repr

structure GitHooks where
  obtainPadata : Option (List PaData) → KdcReq → Except ECode KdcReq
  processPadata : KdcReq → KdcRep →
    Except ECode (Option (List Nat) × Bool)
  timeAt : Nat → Int
  decodePadataSeq : List Nat → Except ECode (List PaData)
  prefFor : String → Option String

inductive GitLoopResult where
  | err (code : ECode) (st : GitState)
  | awaitingReply (st : GitState)
  | gotReply (rep : KdcRep) (decryptKey : Option (List Nat)) (st : GitState)
deriving DecidableEq, Repr

/-- The while-loop of krb5_get_in_tkt (get_in_tkt.c:675-780).  Every
iteration: the loopcount check (compare the old value against
MAX_IN_TKT_LOOPS, then increment), krb5_obtain_padata (consuming and freeing
preauth_to_use), a fresh timestamp written into request.nonce, then one
send_as_request round from the script.  An empty script means the loop body
reached the transmission point with no scripted reply: the run is blocked on
transport.  A PREAUTH_REQUIRED error with nonempty e-data decodes and sorts
the hinted padata and iterates; a WRONG_REALM error under canonicalization
counts a referral hop and rewrites the client realm and the server principal
(from the original creds server) atomically; other errors surface as
error + ERROR_TABLE_BASE_krb5.  An AS-REP runs krb5_process_padata and
iterates while do_more is set. -/
def gitLoop (h : GitHooks) (maxhops : Nat) :
    GitState → List SendResult → GitLoopResult
  | st, script =>
    if st.loopcount > MAX_IN_TKT_LOOPS then
      .err ECode.GET_IN_TKT_LOOP { st with loopcount := st.loopcount + 1 }
    else
      let st := { st with loopcount := st.loopcount + 1 }
      match h.obtainPadata st.preauthToUse st.request with
      | .error e => .err e st
      | .ok req2 =>
        let timeNow := h.timeAt st.loopcount
        let st := { st with
          request := { req2 with nonce := timeNow }
          preauthToUse := none }
        match script with
        | [] => .awaitingReply st
        | outcome :: rest =>
          match outcome with
          | .failed e => .err e st
          | .gotError err =>
            if err.error == KDC_ERR_PREAUTH_REQUIRED &&
                err.eData.length != 0 then
              match h.decodePadataSeq err.eData with
              | .error e => .err e st
              | .ok pl =>
                let s := sort_krb5_padata_sequence
                  (h.prefFor st.request.server.realm) (some pl)
                if s.1 != ECode.noError then .err s.1 st
                else gitLoop h maxhops { st with preauthToUse := s.2 } rest
            else if st.canonFlag && (err.error == KDC_ERR_WRONG_REALM) then
              let st := { st with referralCount := st.referralCount + 1 }
              if st.referralCount > maxhops then
                .err (kdcSurfaced KDC_ERR_WRONG_REALM) st
              else
                match err.client with
                | none => .err (kdcSurfaced KDC_ERR_WRONG_REALM) st
                | some ec =>
                  if ec.realm.length == 0 then
                    .err (kdcSurfaced KDC_ERR_WRONG_REALM) st
                  else
                    gitLoop h maxhops { st with
                      request := { st.request with
                        client := { st.request.client with realm := ec.realm }
                        server := rewrite_server_realm st.origServer ec.realm
                          st.isTgtReq } } rest
            else .err (kdcSurfaced err.error) st
          | .gotReply rep =>
            match h.processPadata st.request rep with
            | .error e => .err e st
            | .ok (dk, doMore) =>
              let st := { st with decryptKey := dk }
              if doMore then gitLoop h maxhops st rest
              else .gotReply rep dk st

inductive GitResult where
  | done (code : ECode) (creds : Creds) (st : GitState)
  | awaiting (st : GitState)
  | precheckFailed (code : ECode)
deriving DecidableEq, Repr

/-- The tail of krb5_get_in_tkt after the while loop (get_in_tkt.c:782-792):
decrypt, verify, stash.  A run that exits the loop with an error or that
exhausts the scripted transport is passed through. -/
def gitFinish (h : GitHooks) (dcb : DecryptCallbacks) (env : VerifyEnv)
    (creds : Creds) : GitLoopResult → GitResult
  | .err e st => .done e creds st
  | .awaitingReply st => .awaiting st
  | .gotReply rep dk st =>
    let d := decrypt_as_reply dcb rep dk
    if d.retval != ECode.noError then .done d.retval creds st
    else
      match d.reply.encPart2 with
      | none => .done ECode.GENERIC creds st
      | some e2 =>
        let tn := h.timeAt st.loopcount
        let v := verify_as_reply env tn st.request d.reply e2
        if v.1 != ECode.noError then .done v.1 creds st
        else
          let rep2 := { d.reply with encPart2 := some v.2 }
          let sres := stash_as_reply rep2 creds
          .done sres.1 sres.2 st

/-- krb5_get_in_tkt: the realm precheck, the initial request (options, times
from the credential, the built-in enctype list, an initial preauth list from
the ptypes argument), the loop, then decrypt, verify and stash.  The claims
never inspect a NULL client or server, which C would dereference; such input
is mapped to a generic precheck failure. -/
def krb5_get_in_tkt (h : GitHooks) (dcb : DecryptCallbacks) (env : VerifyEnv)
    (maxhops : Nat) (options : Nat) (ptypes : Option (List Int))
    (creds : Creds) (script : List SendResult) : GitResult :=
  match creds.client, creds.server with
  | some cl, some sv =>
    if cl.realm != sv.realm then .precheckFailed ECode.REALM_MISMATCH
    else
      let canon := ((options &&& KDC_OPT_CANONICALIZE) != 0) ||
        (cl.ntype == KRB5_NT_ENTERPRISE_PRINCIPAL)
      let st0 : GitState :=
        { request :=
            { client := cl, server := sv, kdcOptions := options, nonce := 0
              from_ := creds.times.starttime, till := creds.times.endtime
              rtime := creds.times.renew_till, ktype := get_in_tkt_enctypes
              padata := none }
          loopcount := 0, referralCount := 0, canonFlag := canon
          isTgtReq := tgt_is_local_realm cl sv, origServer := sv
          preauthToUse := ptypes.map make_preauth_list, decryptKey := none }
      gitFinish h dcb env creds (gitLoop h maxhops st0 script)
  | _, _ => .precheckFailed ECode.GENERIC

/-- The loop counter recorded in a loop result. -/
def gitLoopcount : GitResult → Nat
  | .done _ _ st => st.loopcount
  | .awaiting st => st.loopcount
  | .precheckFailed _ => 0

/-- The error code of a finished run (none while blocked on transport). -/
def gitCode : GitResult → Option ECode
  | .done c _ _ => some c
  | .awaiting _ => none
  | .precheckFailed c => some c

/-!
## Concrete scenario instances for claims C1, C3 and C4

A context as krb5_init_creds_init produces it with default options and no
matching configuration: zero-filled request (note till stays 0 in this code
version), a random nonce (here fixed), forwardable and friends unset,
tkt_life defaulted, renew_life 0, no service string, empty credential.  The
server principal is NULL until the first init_creds_step_request builds it;
the model uses an empty placeholder principal for that window. -/

def noServer : Principal := { realm := "", comps := [], ntype := 0 }

def emptyCreds : Creds :=
  { client := none, server := none, keyblock := []
    times := { authtime := 0, starttime := 0, endtime := 0, renew_till := 0 }
    isSkey := false, ticketFlags := 0, addresses := [], secondTicket := []
    ticket := none }

def initCtx (client : Principal) (nonce : Int) : Ctx :=
  { request :=
      { client := client, server := noServer, kdcOptions := 0, nonce := nonce
        from_ := 0, till := 0, rtime := 0, ktype := [18, 17, 16, 23]
        padata := none }
    errReply := none, reply := none, loopcount := 0, preauthToUse := none
    encodedRequestBody := none, encodedPreviousRequest := none
    salt := none, s2kparams := [], etype := 0, asKey := []
    requestTime := 0, startTime := 0, tktLife := 86400, renewLife := 0
    inTktService := none, cred := emptyCreds }

def tooBigErr : KrbError :=
  { ctime := 0, cusec := 0, stime := 0, susec := 0, error := 52
    client := none, server := tgtR, text := [], eData := [] }

def preauthErr : KrbError :=
  { ctime := 0, cusec := 0, stime := 0, susec := 0, error := 25
    client := none, server := tgtR, text := [], eData := [9] }

/-- An undecrypted AS-REP for alice@R matching the requests initCtx produces
(its enc-part decrypts to e2C2, whose nonce 42 echoes the request nonce). -/
def testRep : KdcRep :=
  { msgType := 11, client := aliceR, ticket := { server := tgtR }
    encPartEnctype := 16, encPart2 := none, padata := none }

/-- A scripted codec: byte [126] tags a KRB-ERROR ([126, 52] decodes to the
RESPONSE_TOO_BIG error, [126, 25] to the PREAUTH_REQUIRED error), byte [107]
tags the AS-REP. -/
def testCodec : Codec :=
  { isKrbError := fun bs => bs.take 1 == [126]
    isAsRep := fun bs => bs.take 1 == [107]
    decodeError := fun bs =>
      if bs == [126, 52] then .ok tooBigErr
      else if bs == [126, 25] then .ok preauthErr
      else .error (ECode.decodeFailure 0)
    decodeAsRep := fun bs =>
      if bs == [107] then .ok testRep
      else .error (ECode.decodeFailure 1) }

/-- Deterministic, well-behaved collaborators: no FAST armor, an empty
preference string (sorting is then the identity), a pre-auth dispatcher that
appends a fresh encrypted-timestamp-style element (pa-type 2) on every
prepare/try-again call — so successive request builds differ, as they do with
real encrypted timestamps — and derives the AS key [7], with which the reply
decrypts to e2C2. -/
def benignHooks : StepHooks :=
  { prefFor := fun _ => some ("")
    timeNow := 1000
    verifyEnv := { clockskew := 300, syncKdcTime := false }
    principal2salt := fun p => [p.realm.length]
    parseService := fun _ => .error (ECode.hookFailure 3)
    fastProcessError := fun e => .ok (e, some [], true)
    fastProcessResponse := fun _ => .ok none
    fastReplyKey := fun _ k => .ok k
    fastAsArmor := fun r => .ok r
    fastPrepReqBody := fun r => .ok r
    fastPrepReq := fun r _ => .ok r
    doPreauth := fun req _ _ _ salt s2k et _ =>
      .ok (some ((req.padata.getD []) ++ [pa 2]), salt, s2k, et, [7])
    doPreauthTryagain := fun req _ _ _ _ salt s2k et _ =>
      .ok (some ((req.padata.getD []) ++ [pa 2]), salt, s2k, et, [7])
    gakFct := fun _ _ _ _ => .ok [7]
    decryptRep := fun k rep =>
      if k == [7] && rep == testRep then .ok e2C2
      else .error (ECode.hookFailure 9) }

def demoStep (ctx : Ctx) (in_ : List Nat) : StepOut :=
  krb5_init_creds_step benignHooks testCodec ctx in_

/-- First step call (empty in): emits the initial request. -/
def c3s1 : StepOut := demoStep (initCtx aliceR 42) []

/-- Second step call: feeds the AS-REP; the machine completes. -/
def c3s2 : StepOut := demoStep c3s1.ctx [107]

/-- Third step call, made after COMPLETE was reported, again with empty in. -/
def c3s3 : StepOut := demoStep c3s2.ctx []

/-- Claim C3 counterexample: after a step call has set COMPLETE (and returned
empty out and realm), a further krb5_init_creds_step call is not a no-op: it
builds and returns a fresh encoded request, sets realm, and increments the
context loop counter. -/
theorem claim_C3_counterexample :
    c3s2.complete = true
    ∧ c3s2.out = none ∧ c3s2.realm = none
    ∧ c3s3.out ≠ none
    ∧ c3s3.realm = some ("R")
    ∧ c3s3.ctx.loopcount = c3s2.ctx.loopcount + 1 := by
  decide

/-- Claim C3 (corrected): the immediate-return-after-completion behaviour
belongs to krb5int_init_creds_get_ext, which returns success at once, leaving
the context untouched, whenever an AS-REP is retained (ctx->reply non-NULL);
krb5_init_creds_step itself performs no completion check, and a subsequent
step call builds and returns a fresh request with nonempty out and realm and
an incremented loop counter. -/
theorem claim_C3_theorem :
    (∀ (h : StepHooks) (c : Codec)
        (transport : KdcReq → String → Bool → Except ECode (List Nat))
        (fuel : Nat) (ctx : Ctx) (r : KdcRep), ctx.reply = some r →
        krb5int_init_creds_get_ext h c transport fuel ctx =
          .finished ECode.noError ctx)
    ∧ c3s2.complete = true ∧ c3s3.out ≠ none
    ∧ c3s3.ctx.loopcount = c3s2.ctx.loopcount + 1 := by
  refine ⟨?_, by decide, by decide, by decide⟩
  intro h c transport fuel ctx r hr
  unfold krb5int_init_creds_get_ext
  rw [hr]
  rfl

/-- Claim C3 witness: get_ext applied to the completed context of the
concrete run returns immediately (the transport hook would fail if it were
consulted). -/
theorem claim_C3_witness :
    krb5int_init_creds_get_ext benignHooks testCodec
      (fun _ _ _ => .error (ECode.hookFailure 4)) 5 c3s2.ctx =
      .finished ECode.noError c3s2.ctx := by
  exact claim_C3_theorem.1 benignHooks testCodec
    (fun _ _ _ => .error (ECode.hookFailure 4)) 5 c3s2.ctx
    { testRep with encPart2 := some e2C2 } (by decide)

/-- The step call that feeds a RESPONSE_TOO_BIG KRB-ERROR into the context
that has just sent its first request. -/
def c4s2 : StepOut := demoStep c3s1.ctx [126, 52]

/-- Claim C4 (code_bug): init_creds_step_reply does surface
KRB5KRB_ERR_RESPONSE_TOO_BIG, and krb5_init_creds_step then copies the
previously sent encoded request into out — but, lacking an early return, it
falls through to init_creds_step_request, which overwrites out with a freshly
built request (here carrying one more pre-auth element), advances loopcount
and sets realm.  The returned out is not the previously sent bytes. -/
theorem claim_C4_theorem :
    (init_creds_step_reply benignHooks testCodec c3s1.ctx [126, 52]).code
      = ECode.RESPONSE_TOO_BIG
    ∧ c3s1.ctx.encodedPreviousRequest = c3s1.out
    ∧ c3s1.out ≠ none
    ∧ c4s2.code = ECode.noError
    ∧ c4s2.out ≠ c3s1.out
    ∧ c4s2.out ≠ none
    ∧ c4s2.ctx.loopcount = c3s1.ctx.loopcount + 1
    ∧ c4s2.realm = some ("R") := by
  decide

/-!
## Claim C1: the loop bound

The all-in-one loop checks `loopcount++ > MAX_IN_TKT_LOOPS` at the top of
each iteration with loopcount starting at 0, so iterations 1 through 17 all
pass the check and the error fires at the start of iteration 18.  The step
API checks `loopcount >= MAX_IN_TKT_LOOPS` only in the AS-REP branch of
init_creds_step_reply; KRB-ERROR rounds never meet the check.
-/

def gitHooksB : GitHooks :=
  { obtainPadata := fun _ req => .ok req
    processPadata := fun _ _ => .ok (none, false)
    timeAt := fun n => 1000 + n
    decodePadataSeq := fun bs => .ok [{ paType := 2, contents := bs }]
    prefFor := fun _ => some ("") }

def gitCreds : Creds :=
  { emptyCreds with client := some aliceR, server := some tgtR }

/-- krb5_get_in_tkt driven by a script of n PREAUTH_REQUIRED errors with
nonempty e-data (the KDC of spec scenario 6). -/
def gitRun (n : Nat) : GitResult :=
  krb5_get_in_tkt gitHooksB cbC8 { clockskew := 300, syncKdcTime := false }
    10 0 none gitCreds (List.replicate n (SendResult.gotError preauthErr))

/-- The initial loop state krb5_get_in_tkt builds for the gitRun arguments
(alice@R requesting krbtgt/R@R, no options, no preauth hints, zero times). -/
def gitSt0 : GitState :=
  { request :=
      { client := aliceR, server := tgtR, kdcOptions := 0, nonce := 0
        from_ := 0, till := 0, rtime := 0, ktype := get_in_tkt_enctypes
        padata := none }
    loopcount := 0, referralCount := 0, canonFlag := false
    isTgtReq := true, origServer := tgtR
    preauthToUse := none, decryptKey := none }

/-- An iteration entered with the counter already past the bound fails at the
top-of-loop check before any transmission; the post-increment of
`loopcount++` still bumps the counter. -/
theorem gitLoop_over (st : GitState) (h : MAX_IN_TKT_LOOPS < st.loopcount)
    (script : List SendResult) :
    gitLoop gitHooksB 10 st script =
      .err ECode.GET_IN_TKT_LOOP
        { st with loopcount := st.loopcount + 1 } := by
  rw [gitLoop.eq_1, if_pos h]

/-- An in-bounds iteration with no scripted reply left stops at the
transmission point: the loop is awaiting transport, one more request built. -/
theorem gitLoop_nil (st : GitState) (h : ¬ MAX_IN_TKT_LOOPS < st.loopcount) :
    gitLoop gitHooksB 10 st [] =
      .awaitingReply
        { st with
          loopcount := st.loopcount + 1
          request := { st.request with
            nonce := gitHooksB.timeAt (st.loopcount + 1) }
          preauthToUse := none } := by
  rw [gitLoop.eq_1, if_neg h]
  rfl

/-- An in-bounds iteration fed a PREAUTH_REQUIRED error with nonempty e-data
decodes and sorts the hint and continues with the next script entry. -/
theorem gitLoop_preauth_step (st : GitState) (rest : List SendResult)
    (h : ¬ MAX_IN_TKT_LOOPS < st.loopcount) :
    gitLoop gitHooksB 10 st (SendResult.gotError preauthErr :: rest) =
      gitLoop gitHooksB 10
        { st with
          loopcount := st.loopcount + 1
          request := { st.request with
            nonce := gitHooksB.timeAt (st.loopcount + 1) }
          preauthToUse := some [{ paType := 2, contents := [9] }] } rest := by
  rw [gitLoop.eq_1, if_neg h]
  rfl

/-- Driven by n PREAUTH_REQUIRED replies while staying in bounds, the loop
consumes all of them and is left awaiting transport with the counter at the
entry value plus n plus one. -/
theorem gitLoop_preauth_run :
    ∀ (n : Nat) (st : GitState), st.loopcount + n ≤ MAX_IN_TKT_LOOPS →
    ∃ st2,
      gitLoop gitHooksB 10 st
          (List.replicate n (SendResult.gotError preauthErr)) =
        .awaitingReply st2
      ∧ st2.loopcount = st.loopcount + n + 1
  | 0, st, h => by
    refine ⟨_, gitLoop_nil st (by simp only [MAX_IN_TKT_LOOPS] at h ⊢; omega),
      ?_⟩
    show st.loopcount + 1 = st.loopcount + 0 + 1
    omega
  | n + 1, st, h => by
    have hle : ¬ MAX_IN_TKT_LOOPS < st.loopcount := by
      simp only [MAX_IN_TKT_LOOPS] at h ⊢; omega
    rw [List.replicate_succ, gitLoop_preauth_step st _ hle]
    obtain ⟨st2, heq, hlc⟩ := gitLoop_preauth_run n
      { st with
        loopcount := st.loopcount + 1
        request := { st.request with
          nonce := gitHooksB.timeAt (st.loopcount + 1) }
        preauthToUse := some [{ paType := 2, contents := [9] }] }
      (by show st.loopcount + 1 + n ≤ MAX_IN_TKT_LOOPS
          simp only [MAX_IN_TKT_LOOPS] at h ⊢
          omega)
    refine ⟨st2, heq, ?_⟩
    have hlc2 : st2.loopcount = st.loopcount + 1 + n + 1 := hlc
    omega

/-- With the counter reaching the bound mid-run, the loop consumes exactly
the replies that fit and then fails with GET_IN_TKT_LOOP: n scripted
PREAUTH_REQUIRED replies produce the error precisely when the entry counter
plus n equals 17. -/
theorem gitLoop_preauth_fail :
    ∀ (n : Nat) (st : GitState),
      st.loopcount + n = MAX_IN_TKT_LOOPS + 1 →
    ∃ st2,
      gitLoop gitHooksB 10 st
          (List.replicate n (SendResult.gotError preauthErr)) =
        .err ECode.GET_IN_TKT_LOOP st2
      ∧ st2.loopcount = st.loopcount + n + 1
  | 0, st, h => by
    refine ⟨_, gitLoop_over st
      (by simp only [MAX_IN_TKT_LOOPS] at h ⊢; omega) _, ?_⟩
    show st.loopcount + 1 = st.loopcount + 0 + 1
    omega
  | n + 1, st, h => by
    have hle : ¬ MAX_IN_TKT_LOOPS < st.loopcount := by
      simp only [MAX_IN_TKT_LOOPS] at h ⊢; omega
    rw [List.replicate_succ, gitLoop_preauth_step st _ hle]
    obtain ⟨st2, heq, hlc⟩ := gitLoop_preauth_fail n
      { st with
        loopcount := st.loopcount + 1
        request := { st.request with
          nonce := gitHooksB.timeAt (st.loopcount + 1) }
        preauthToUse := some [{ paType := 2, contents := [9] }] }
      (by show st.loopcount + 1 + n = MAX_IN_TKT_LOOPS + 1
          simp only [MAX_IN_TKT_LOOPS] at h ⊢
          omega)
    refine ⟨st2, heq, ?_⟩
    have hlc2 : st2.loopcount = st.loopcount + 1 + n + 1 := hlc
    omega

/-- Unfolding the non-recursive prelude of krb5_get_in_tkt at the gitRun
arguments: the precheck passes and the loop starts from gitSt0. -/
theorem gitRun_eq (n : Nat) :
    gitRun n = gitFinish gitHooksB cbC8
      { clockskew := 300, syncKdcTime := false } gitCreds
      (gitLoop gitHooksB 10 gitSt0
        (List.replicate n (SendResult.gotError preauthErr))) := by
  simp only [gitRun, krb5_get_in_tkt, gitCreds, emptyCreds, gitSt0,
    get_in_tkt_enctypes, aliceR, tgtR, tgt_is_local_realm, make_preauth_list,
    KDC_OPT_CANONICALIZE, KRB5_NT_ENTERPRISE_PRINCIPAL]
  norm_num
  rw [show ((0 : Int) == 10) = false from by decide]

/-- Claim C1 counterexample: after 16 pre-auth-required replies the loop is
still running — its 17th iteration does not fail but builds a 17th request
and blocks on transport, and the loop counter stands at 17, exceeding 16. -/
theorem claim_C1_counterexample :
    gitCode (gitRun 16) ≠ some ECode.GET_IN_TKT_LOOP
    ∧ gitLoopcount (gitRun 16) = 17 := by
  obtain ⟨st2, heq, hlc⟩ := gitLoop_preauth_run 16 gitSt0 (by decide)
  have hrun : gitRun 16 = GitResult.awaiting st2 := by
    rw [gitRun_eq 16, heq]
    rfl
  have h17 : st2.loopcount = 17 := by
    have hlc2 : st2.loopcount = 0 + 16 + 1 := hlc
    omega
  constructor
  · rw [hrun]
    simp [gitCode]
  · rw [hrun]
    simpa [gitLoopcount] using h17

/-- A context that has already emitted 16 requests. -/
def ctx16 : Ctx := { initCtx aliceR 42 with loopcount := 16 }

/-- A context driven through one initial request and n KRB-ERROR
(PREAUTH_REQUIRED) rounds of the step API. -/
def demoCtxN : Nat → Ctx
  | 0 => (demoStep (initCtx aliceR 42) []).ctx
  | n + 1 => (demoStep (demoCtxN n) [126, 25]).ctx

/-- Claim C1 (corrected): in krb5_get_in_tkt the check is
loopcount++ > 16 with loopcount starting at 0, so a 17th request is still
sent (16 scripted error replies leave the run awaiting transport with the
counter at 17) and GET_IN_TKT_LOOP fires at the start of the 18th iteration
(17 scripted replies produce the error with the counter at 18).  In the step
API the bound is enforced only when an AS-REP is processed (an AS-REP
arriving with loopcount = 16 yields GET_IN_TKT_LOOP), while KRB-ERROR-driven
rounds are not bounded by the counter: 20 further error rounds all succeed
and push the counter to 21. -/
theorem claim_C1_theorem :
    gitCode (gitRun 16) = none
    ∧ gitLoopcount (gitRun 16) = 17
    ∧ gitCode (gitRun 17) = some ECode.GET_IN_TKT_LOOP
    ∧ gitLoopcount (gitRun 17) = 18
    ∧ (init_creds_step_reply benignHooks testCodec ctx16 [107]).code
        = ECode.GET_IN_TKT_LOOP
    ∧ (demoCtxN 20).loopcount = 21
    ∧ (demoStep (demoCtxN 19) [126, 25]).code = ECode.noError := by
  obtain ⟨st2, heq, hlc⟩ := gitLoop_preauth_run 16 gitSt0 (by decide)
  have hrun : gitRun 16 = GitResult.awaiting st2 := by
    rw [gitRun_eq 16, heq]
    rfl
  have h17 : st2.loopcount = 17 := by
    have hlc2 : st2.loopcount = 0 + 16 + 1 := hlc
    omega
  obtain ⟨st3, heq3, hlc3⟩ := gitLoop_preauth_fail 17 gitSt0 (by decide)
  have hrun3 : gitRun 17 =
      GitResult.done ECode.GET_IN_TKT_LOOP gitCreds st3 := by
    rw [gitRun_eq 17, heq3]
    rfl
  have h18 : st3.loopcount = 18 := by
    have hlc4 : st3.loopcount = 0 + 17 + 1 := hlc3
    omega
  refine ⟨?_, ?_, ?_, ?_, by decide, by decide, by decide⟩
  · rw [hrun]
    simp [gitCode]
  · rw [hrun]
    simpa [gitLoopcount] using h17
  · rw [hrun3]
    simp [gitCode]
  · rw [hrun3]
    simpa [gitLoopcount] using h18




end Krb5GetInTkt
